import Mathlib

/-!
Shallow embedding of the local search and ranking engine of the repository
(`src/pipelines/papersrch/pt_search.py` and
`src/pipelines/papersrch/text_utils.py`), together with proofs settling the
specification claims about it.

Modelling conventions:
* Python strings are Lean `String`s; the primitive string operations
  (lower-casing, strip, substring search, splitting) are implemented by
  structural recursion over the character list so that everything evaluates
  inside the kernel.  `unicodedata.normalize('NFKC', ·)` is modelled as the
  identity map: it is the identity on the ASCII strings handled throughout
  this development, and no claim depends on non-ASCII canonicalisation.
  Python's `str.lower` / `\w` / `\s` agree with `Char.toLower` /
  `Char.isAlphanum || '_'` / `Char.isWhitespace` on ASCII.
* Python floats are modelled as exact rationals (`ℚ`); the fixed bonus
  constants 1.2, 0.8, 0.2, 0.15, 0.1 of the source become 6/5, 4/5, 1/5,
  3/20, 1/10.
* The sklearn TF-IDF cosine similarities are external numeric inputs of the
  ranking step and are modelled as oracle functions `cosTi cosAb : String → ℚ`
  indexed by PMID; every ranking-structure claim is proved for all oracles.
* Python's `list.sort` is a stable sort; it is modelled by the (stable)
  `List.insertionSort`, which computes the same list for the total preorder
  used as the ranking key.  `list.sort` evaluates its key function on every
  element before comparing; the key `-(r["year"] or 0)` raises `TypeError`
  on a missing year (the stored value is `pd.NA`), which the model surfaces
  as an error outcome before any sorting.
* Python sets of PMIDs are `Finset String`.
-/

attribute [local semireducible] Rat.add Rat.mul Rat.inv Rat.sub

namespace PtSearch

/-- Decidable equality of `Except` values, for evaluating the model on
concrete inputs. -/
instance {ε α : Type} [DecidableEq ε] [DecidableEq α] :
    DecidableEq (Except ε α) := fun a b =>
  match a, b with
  | .ok x, .ok y => decidable_of_iff (x = y) (by simp)
  | .error e, .error f => decidable_of_iff (e = f) (by simp)
  | .ok _, .error _ => isFalse (by simp)
  | .error _, .ok _ => isFalse (by simp)

/-- Does the first char list occur at the start of the second? -/
def startsWith : List Char → List Char → Bool
  | [], _ => true
  | _ :: _, [] => false
  | a :: as, b :: bs => a = b && startsWith as bs

/-- Does the first char list occur (contiguously) anywhere in the second? -/
def occursIn : List Char → List Char → Bool
  | [], _ => true
  | _ :: _, [] => false
  | n, c :: cs => startsWith n (c :: cs) || occursIn n cs

/-- Substring containment, Python's `needle in hay` on `str`. -/
def strContains (hay needle : String) : Bool :=
  occursIn needle.data hay.data

/-- Python `str.lower` (ASCII fragment). -/
def lowerStr (s : String) : String :=
  String.mk (s.data.map Char.toLower)

/-- Python `str.strip`: drop whitespace from both ends. -/
def stripStr (s : String) : String :=
  String.mk (((s.data.dropWhile Char.isWhitespace).reverse.dropWhile
    Char.isWhitespace).reverse)

/-- Python `" ".join(...)`. -/
def joinSpace : List String → String
  | [] => ""
  | [s] => s
  | s :: rest => s ++ " " ++ joinSpace rest

/-- The table `text_utils.GREEK_MAP` applied char-wise: `text.replace(k, v)` for each of
the five Greek letters (each replacement value contains no Greek letter, so
the sequential replaces equal one simultaneous char-wise substitution). -/
def greekRepl (c : Char) : List Char :=
  if c = 'β' then "beta".data
  else if c = 'α' then "alpha".data
  else if c = 'κ' then "kappa".data
  else if c = 'γ' then "gamma".data
  else if c = 'δ' then "delta".data
  else [c]

/-- Python `re.sub(r"\s+", " ", text)`: collapse every maximal run of whitespace to a
single space.  The flag records whether the previous char was whitespace. -/
def collapseWsAux : Bool → List Char → List Char
  | _, [] => []
  | prevWs, c :: cs =>
    if c.isWhitespace then
      if prevWs then collapseWsAux true cs
      else ' ' :: collapseWsAux true cs
    else c :: collapseWsAux false cs

/-- Embeds `text_utils.normalize_text`: NFKC (identity on the ASCII fragment, see
module comment), Greek-letter transliteration, whitespace collapsing, strip. -/
def normalizeText (text : String) : String :=
  stripStr (String.mk (collapseWsAux false ((text.data.map greekRepl).flatten)))

/-- Python `\w`: word character (letter, digit or underscore; ASCII fragment). -/
def isWordChar (c : Char) : Bool :=
  c.isAlphanum || c = '_'

/-- Maximal runs of word characters, i.e. `re.findall(r"\b\w+\b", ·)`.
The accumulator holds the current run, reversed. -/
def wordRunsAux : List Char → List Char → List String
  | acc, [] => if acc.isEmpty then [] else [String.mk acc.reverse]
  | acc, c :: cs =>
    if isWordChar c then wordRunsAux (c :: acc) cs
    else if acc.isEmpty then wordRunsAux [] cs
    else String.mk acc.reverse :: wordRunsAux [] cs

/-- Embeds `text_utils.tokenize`: normalize, lower-case, extract word-character runs. -/
def tokenize (text : String) : List String :=
  wordRunsAux [] (lowerStr (normalizeText text)).data

/-- The list `text_utils.DOMAIN_KEYWORDS`. -/
def DOMAIN_KEYWORDS : List String :=
  ["nf-kb", "tgf-beta", "il-6", "tnf", "t cell", "epithelial barrier",
   "autophagy", "mucosa", "tight junction", "smad2", "smad3"]

/-- Code-point lexicographic strict order on char lists (Python `str` `<`). -/
def charListLt : List Char → List Char → Bool
  | [], [] => false
  | [], _ :: _ => true
  | _ :: _, [] => false
  | a :: as, b :: bs => a < b || (a = b && charListLt as bs)

/-- Comparison `a ≤ b` for Python strings (code-point lexicographic). -/
def strLeB (a b : String) : Bool :=
  !charListLt b.data a.data

/-- Insert into an ascending list of strings. -/
def insertStr (a : String) : List String → List String
  | [] => [a]
  | b :: l => if strLeB a b then a :: b :: l else b :: insertStr a l

/-- Ascending insertion sort on strings. -/
def sortStrs : List String → List String
  | [] => []
  | b :: l => insertStr b (sortStrs l)

/-- Ascending sort of the distinct elements of a list of strings: Python's
`sorted(set(...))` (code-point lexicographic order on both sides). -/
def sortedDistinct (l : List String) : List String :=
  sortStrs l.dedup

/-- Embeds `text_utils.expand_query_terms`, body for one term: normalize + lower,
then the three hardcoded synonym rules, returned as a sorted variant list. -/
def expandTerm (term : String) : List String :=
  let norm := lowerStr (normalizeText term)
  let v0 := [norm]
  let v1 :=
    if strContains norm "microrna" || strContains norm "mirna" ||
        strContains norm "mir-" then
      v0 ++ ["microrna", "mirna", "mir"]
    else v0
  let v2 :=
    if norm = "ibd" || norm = "inflammatory bowel disease" then
      v1 ++ ["ibd", "inflammatory bowel disease"]
    else v1
  let v3 :=
    if strContains norm "celiac" || strContains norm "coeliac" then
      v2 ++ ["celiac", "coeliac"]
    else v2
  sortedDistinct v3

/-- Embeds `text_utils.expand_query_terms`. -/
def expandQueryTerms (terms : List String) : List (List String) :=
  terms.map expandTerm

/-- One article record, with the post-`load_corpus` column values the engine
reads: `PMID`, `Title`, `Abstract`, `Authors` (the normalized joined string),
`Journal`, nullable integer `Year`, `DOI`, `citation_apa`, and the
`PublicationTypes_norm` label list. -/
structure Doc where
  pmid : String
  title : String
  abstract : String
  authors : String
  journal : String
  year : Option Int
  doi : String
  citationApa : String
  pubTypes : List String
deriving DecidableEq

/-- A corpus is the loaded table, in row order. -/
abbrev Corpus := List Doc

/-- The universe `set(self.df["PMID"])`: the full document-id universe. -/
def universePmids (c : Corpus) : Finset String :=
  (c.map Doc.pmid).toFinset

/-- The index `self.inv_ti`: title inverted index, as the set of PMIDs of documents
whose title tokens contain the token (built row by row in `__init__`). -/
def invTi (c : Corpus) (tok : String) : Finset String :=
  ((c.filter (fun d => tok ∈ tokenize d.title)).map Doc.pmid).toFinset

/-- The index `self.inv_ab`: abstract inverted index. -/
def invAb (c : Corpus) (tok : String) : Finset String :=
  ((c.filter (fun d => tok ∈ tokenize d.abstract)).map Doc.pmid).toFinset

/-- The selector `index_for(field)` of `_candidate_pmids`: `"ti"` and `"ab"` select one
index; any other value selects the freshly merged union of both. -/
def indexFor (c : Corpus) (fields tok : String) : Finset String :=
  if fields = "ti" then invTi c tok
  else if fields = "ab" then invAb c tok
  else invTi c tok ∪ invAb c tok

/-- Per-group candidate set: union over the group's variant terms of the
chosen index's entry (`group_set.update(index.get(term, set()))`). -/
def groupSet (c : Corpus) (fields : String) (group : List String) : Finset String :=
  group.foldl (fun acc term => acc ∪ indexFor c fields term) ∅

/-- Embeds `SearchEngine._candidate_pmids`. -/
def candidatePmids (c : Corpus) (queryGroups : List (List String))
    (op fields : String) : Finset String :=
  if queryGroups = [] then universePmids c
  else
    let sets := queryGroups.map (groupSet c fields)
    if op = "AND" then sets.foldl (· ∩ ·) (universePmids c)
    else if op = "OR" then sets.foldl (· ∪ ·) ∅
    else if op = "NOT" then universePmids c \ sets.foldl (· ∪ ·) ∅
    else universePmids c

/-- The non-id arguments of `SearchEngine._apply_filters`, bundled.  `author`
is the already-defaulted string (`search` passes `author or ""`). -/
structure FilterArgs where
  yearMin : Int
  yearMax : Option Int
  journalInc : List String
  journalExc : List String
  author : String
  hasDoi : Bool
  excludeTerms : List String
  fields : String
deriving DecidableEq

/-- The per-row keep/skip decision of `_apply_filters`, one conjunct per
`continue` guard, in source order:
* skip if `year is not None and year < year_min`;
* skip if `year_max is not None and year is not None and year > year_max`;
* skip if `journal_inc` nonempty and no include string occurs (lower-cased)
  in the lower-cased journal;
* skip if some exclude string occurs in the journal;
* skip if `author` nonempty and not a substring of the lower-cased authors;
* skip if `has_doi` and the DOI is empty;
* skip if some excluded term occurs (lower-cased) in the lower-cased
  space-joined selected text fields (`"ti"`/`"tiab"` add the title,
  `"ab"`/`"tiab"` add the abstract). -/
def passesFilters (a : FilterArgs) (d : Doc) : Bool :=
  let yearMinOk := match d.year with
    | none => true
    | some y => !(y < a.yearMin)
  let yearMaxOk := match a.yearMax, d.year with
    | some ymax, some y => !(y > ymax)
    | _, _ => true
  let journal := lowerStr d.journal
  let incOk := a.journalInc.isEmpty ||
    a.journalInc.any (fun j => strContains journal (lowerStr j))
  let excOk := !(a.journalExc.any (fun j => strContains journal (lowerStr j)))
  let authorOk := a.author = "" ||
    strContains (lowerStr d.authors) (lowerStr a.author)
  let doiOk := !a.hasDoi || d.doi ≠ ""
  let textFields :=
    (if a.fields = "ti" || a.fields = "tiab" then [d.title] else []) ++
    (if a.fields = "ab" || a.fields = "tiab" then [d.abstract] else [])
  let content := lowerStr (joinSpace textFields)
  let exclTermsOk := !(a.excludeTerms.any (fun t => strContains content (lowerStr t)))
  yearMinOk && yearMaxOk && incOk && excOk && authorOk && doiOk && exclTermsOk

/-- Row lookup `df.loc[pmid]` after `df.set_index("PMID")` (PMIDs are unique after the
loader's deduplication): the row with the given PMID, if any. -/
def lookupDoc (c : Corpus) (p : String) : Option Doc :=
  c.find? (fun d => d.pmid = p)

/-- The failure conditions of the embedded engine: `_apply_filters` raises
pandas' `KeyError` when handed a PMID absent from the corpus, and the sort
key of `search` raises `TypeError` when a missing-year record reaches it —
`Year` is a nullable `Int64` column (`load_corpus` line 61), the result dict
stores the raw `row["Year"]` (line 265), so a missing year arrives at
`-(r["year"] or 0)` (line 276) as `pd.NA`, whose truthiness raises
`TypeError: boolean value of NA is ambiguous` instead of yielding 0. -/
inductive EngineErr where
  | keyError
  | typeError
deriving DecidableEq

/-- One iteration of the `for pmid in pmids` loop of `_apply_filters`, after
the id was found: does the row survive every filter? -/
def keepsRow (c : Corpus) (a : FilterArgs) (p : String) : Bool :=
  match lookupDoc c p with
  | none => false
  | some d => passesFilters a d

/-- Embeds `SearchEngine._apply_filters`: filter a candidate id set, returning a set.
The Python loop iterates the set in unspecified order, appending the ids that
pass every filter and raising `KeyError` at an id absent from the corpus; both
the `KeyError` outcome and the returned set are independent of the iteration
order, so the loop is modelled as a set comprehension guarded by totality of
the row lookup. -/
def applyFilters (c : Corpus) (a : FilterArgs) (pmids : Finset String) :
    Except EngineErr (Finset String) :=
  if ∀ p ∈ pmids, (lookupDoc c p).isSome then
    .ok (pmids.filter (fun p => keepsRow c a p = true))
  else .error .keyError

/-- Python `re.split(r"[\.\!?]", ·)`: split at every `.`, `!`, `?` (keeping empty
pieces).  The accumulator holds the current piece, reversed. -/
def sentenceSplitAux : List Char → List Char → List String
  | acc, [] => [String.mk acc.reverse]
  | acc, c :: cs =>
    if c = '.' || c = '!' || c = '?' then
      String.mk acc.reverse :: sentenceSplitAux [] cs
    else sentenceSplitAux (c :: acc) cs

/-- The cache `self.sentences[pmid]` as built in `__init__`: the abstract split on
`.`, `!`, `?`, pieces with whitespace-only content dropped, each tokenized. -/
def sentenceTokens (abstract : String) : List (List String) :=
  ((sentenceSplitAux [] abstract.data).filter (fun s => stripStr s ≠ "")).map tokenize

/-- Embeds `SearchEngine._proximity`: some sentence of the cached tokenization
contains at least 2 entries of `terms` (`sum(1 for t in terms if t in sent)`
counts entries of the `terms` list, i.e. with multiplicity). -/
def proximityHolds (sentences : List (List String)) (terms : List String) : Bool :=
  sentences.any (fun sent => decide (2 ≤ terms.countP (fun t => sent.contains t)))

/-- Embeds `SearchEngine._domain_boost`: 0.1 per domain keyword occurring in the
lower-cased abstract, capped at 0.2. -/
def domainBoost (abstract : String) : ℚ :=
  let text := lowerStr abstract
  let count := DOMAIN_KEYWORDS.countP (fun kw => strContains text kw)
  min (1/5) ((1/10) * (count : ℚ))

/-- The recency bonus computed in `search` (lines 229–239): present only when
the year is; 0 for `year ≤ 2020`, 0.2 for `year ≥ 2025`, otherwise
`((year - 2020) / 5) * 0.2`.  A missing year contributes 0 (the code adds
nothing). -/
def recencyBonus : Option Int → ℚ
  | none => 0
  | some y =>
    if y ≤ 2020 then 0
    else if y ≥ 2025 then 1/5
    else ((y : ℚ) - 2020) / 5 * (1/5)

/-- The tags of the human-readable `explanation` list of a result record
(`"title"`, `f"recency+{rec:.2f}"`, `"review"`, `f"domain+{dom:.2f}"`,
`"proximity"`), as structured values. -/
inductive Expl where
  | title
  | recency (amount : ℚ)
  | review
  | domain (amount : ℚ)
  | proximity
deriving DecidableEq

/-- The recency explanation entries appended in `search`: appended only when
the year is present and the bonus is nonzero (`if rec:`). -/
def recencyExplList (year : Option Int) : List Expl :=
  match year with
  | none => []
  | some y => if recencyBonus (some y) ≠ 0 then [.recency (recencyBonus (some y))] else []

/-- One result record of `search` (the dict appended to `results`). -/
structure ResultRec where
  pmid : String
  title : String
  abstract : String
  journal : String
  year : Option Int
  doi : String
  citationApa : String
  score : ℚ
  cosTitle : ℚ
  cosAbstract : ℚ
  matchedTerms : List String
  explanation : List Expl
  abstractLen : Nat
  hasDoiFlag : Nat
deriving DecidableEq

/-- The score and explanation accumulated by the ranking loop of `search` up
to (and excluding) the proximity step: TF-IDF base score, title bonus,
recency bonus, review bonus, domain bonus, in source order. -/
def preProxScore (flat : List String) (cTi cAb : ℚ) (d : Doc) : ℚ × List Expl :=
  let base := (6/5 : ℚ) * cTi + (4/5 : ℚ) * cAb
  let tiToks := tokenize d.title
  let titleHit := flat.any (fun t => tiToks.contains t)
  let s1 := if titleHit then base + 1/5 else base
  let e1 : List Expl := if titleHit then [.title] else []
  let s2 := s1 + recencyBonus d.year
  let e2 := e1 ++ recencyExplList d.year
  let reviewHit := d.pubTypes.any (fun pt =>
    strContains (lowerStr pt) "review" || strContains (lowerStr pt) "meta-analysis")
  let s3 := if reviewHit then s2 + 1/5 else s2
  let e3 := if reviewHit then e2 ++ [.review] else e2
  let dom := domainBoost d.abstract
  let s4 := if dom ≠ 0 then s3 + dom else s3
  let e4 := if dom ≠ 0 then e3 ++ [.domain dom] else e3
  (s4, e4)

/-- One iteration of the ranking loop of `search`: the full result record for
one candidate document.  The TF-IDF cosines are the oracle inputs, consulted
only for the fields selected by `fields` (the code leaves the zero vector
otherwise). -/
def scoreDoc (flat : List String) (fields : String) (cosTi cosAb : String → ℚ)
    (d : Doc) : ResultRec :=
  let cTi := if fields = "ti" || fields = "tiab" then cosTi d.pmid else 0
  let cAb := if fields = "ab" || fields = "tiab" then cosAb d.pmid else 0
  let tiToks := tokenize d.title
  let abToks := tokenize d.abstract
  let matched := sortedDistinct (flat.filter (fun t =>
    tiToks.contains t || abToks.contains t))
  let se := preProxScore flat cTi cAb d
  let prox := proximityHolds (sentenceTokens d.abstract) flat
  { pmid := d.pmid, title := d.title, abstract := d.abstract,
    journal := d.journal, year := d.year, doi := d.doi,
    citationApa := d.citationApa,
    score := if prox then se.1 + 3/20 else se.1,
    cosTitle := cTi, cosAbstract := cAb,
    matchedTerms := matched,
    explanation := if prox then se.2 ++ [.proximity] else se.2,
    abstractLen := d.abstract.length,
    hasDoiFlag := if d.doi ≠ "" then 1 else 0 }

/-- The sort key of `results.sort(key=lambda r: (-score, -(year or 0),
-abstract_len, -has_doi))`, with the negations absorbed by comparing in the
opposite direction: descending lexicographically by score, then year, then
abstract length, then DOI-presence flag. -/
abbrev RankKey := Lex (ℚ × Lex (ℤ × Lex (ℕ × ℕ)))

/-- The key tuple of one result record.  The key function is only ever
evaluated on records whose year is present: on a missing year the source's
`r["year"] or 0` raises `TypeError` (the value is `pd.NA`, see `EngineErr`),
which `searchModel` surfaces as `.error .typeError` before any sorting
happens, so the `getD 0` branch below is unreachable from `searchModel` and
merely totalises the function.  For a present year `y`, `y or 0` is `y`
(`0 or 0` is still `0`), so the key component is the year itself. -/
def rankKey (r : ResultRec) : RankKey :=
  toLex (r.score, toLex ((r.year.getD 0 : ℤ), toLex (r.abstractLen, r.hasDoiFlag)))

/-- Whether `a` may precede `b` in the sorted result list: its key is lexicographically
at least `b`'s (Python sorts ascending by the negated tuple). -/
def RankLe (a b : ResultRec) : Prop :=
  rankKey b ≤ rankKey a

instance : DecidableRel RankLe := fun a b =>
  inferInstanceAs (Decidable (rankKey b ≤ rankKey a))

instance : IsTotal ResultRec RankLe :=
  ⟨fun a b => le_total (rankKey b) (rankKey a)⟩

instance : IsTrans ResultRec RankLe :=
  ⟨fun _ _ _ h₁ h₂ => le_trans h₂ h₁⟩

/-- Embeds `SearchEngine.search`: expansion, candidate selection, metadata filter,
empty-result short-circuit, per-candidate scoring in corpus order
(`df[df["PMID"].isin(pmids)]` preserves corpus row order), then the sort and
truncation to `k` results (Python default 30).  `list.sort` evaluates the key
on every element of `results` before comparing, so if any scored record has a
missing year the `pd.NA` truthiness `TypeError` of the key (line 276, see
`EngineErr`) escapes and `search` returns no list; otherwise the sort is
stable descending. -/
def searchModel (c : Corpus) (cosTi cosAb : String → ℚ) (query : List String)
    (op fields : String) (yearMin : Int) (yearMax : Option Int)
    (journalInc journalExc : List String) (author : String) (hasDoi : Bool)
    (excludeTerms : List String) (k : Nat) : Except EngineErr (List ResultRec) :=
  let groups := expandQueryTerms query
  let cand := candidatePmids c groups op fields
  match applyFilters c
      ⟨yearMin, yearMax, journalInc, journalExc, author, hasDoi, excludeTerms,
       fields⟩ cand with
  | .error e => .error e
  | .ok pmids =>
    if pmids = ∅ then .ok []
    else
      let docs := c.filter (fun d => decide (d.pmid ∈ pmids))
      let flat := groups.flatten
      let results := docs.map (scoreDoc flat fields cosTi cosAb)
      if results.any (fun r => r.year.isNone) then .error .typeError
      else .ok ((results.insertionSort RankLe).take k)

/-! ### Demonstration corpora

Small concrete corpora used to evaluate the model at the explicit inputs of
the counterexamples and witnesses (`docA`/`docB`/`docC` are the three
documents of the spec's end-to-end example in §8). -/

/-- Spec §8 example document A. -/
def docA : Doc := ⟨"A", "microRNA biomarkers in celiac disease", "", "", "", some 2021, "", "", ["Review"]⟩

/-- Spec §8 example document B. -/
def docB : Doc := ⟨"B", "unrelated cancer imaging study", "", "", "", some 2019, "", "", []⟩

/-- Spec §8 example document C. -/
def docC : Doc := ⟨"C", "IBD inflammatory bowel disease markers", "autophagy", "", "", some 2024, "", "", []⟩

/-- The three-document corpus of spec §8. -/
def abc : Corpus := [docA, docB, docC]

/-- The filter arguments corresponding to `search`'s Python defaults. -/
def defaultArgs : FilterArgs := ⟨2020, none, [], [], "", false, [], "tiab"⟩

/-- A document whose `Year` is absent. -/
def noYearDoc : Doc := ⟨"N", "some title", "some abstract", "", "J", none, "", "", []⟩

/-- A document whose title contains the phrase "inflammatory bowel disease"
but not the token "ibd". -/
def phraseDoc : Doc := ⟨"D1", "inflammatory bowel disease markers", "", "", "", some 2021, "", "", []⟩

/-- A document whose abstract mentions "ibd" once, in one sentence. -/
def proxDoc : Doc := ⟨"P", "x", "ibd is studied", "", "", none, "", "", []⟩

/-- The flattened term list of the expanded query `["IBD", "IBD"]`; the two
groups are equal, so every variant occurs twice. -/
def dupFlat : List String := (expandQueryTerms ["IBD", "IBD"]).flatten

/-- The result record produced for `docA` by the query `["microRNA"]` with
operator AND, fields "tiab" and a zero cosine oracle: title bonus 0.2,
recency 0.04, review bonus 0.2. -/
def resA : ResultRec :=
  ⟨"A", "microRNA biomarkers in celiac disease", "", "", some 2021, "", "",
   11/25, 0, 0, ["microrna"], [.title, .recency (1/25), .review], 0, 0⟩

/-! ### Helper lemmas -/

/-- A left fold by intersection only shrinks its starting set. -/
theorem foldl_inter_subset_init {α : Type} [DecidableEq α]
    (l : List (Finset α)) (init : Finset α) :
    l.foldl (· ∩ ·) init ⊆ init := by
  induction l generalizing init with
  | nil => exact Finset.Subset.refl _
  | cons s rest ih =>
    exact (ih (init ∩ s)).trans Finset.inter_subset_left

/-- A left fold by union only grows its starting set. -/
theorem init_subset_foldl_union {α : Type} [DecidableEq α]
    (l : List (Finset α)) (init : Finset α) :
    init ⊆ l.foldl (· ∪ ·) init := by
  induction l generalizing init with
  | nil => exact Finset.Subset.refl _
  | cons s rest ih =>
    exact Finset.subset_union_left.trans (ih (init ∪ s))

/-! ### Claim theorems -/

/-- C1, counterexample: the claim "a document with absent Year is excluded by
the metadata filter under any `year_min`" is false on the code.  With
`year_min = 2020` (and the other parameters at the `search` defaults) the
missing-year document `N` is in the filter's result set. -/
theorem missing_year_doc_kept_by_filter :
    noYearDoc.year = none ∧
    applyFilters [noYearDoc] ⟨2020, none, [], [], "", false, [], "tiab"⟩
      {"N"} = .ok {"N"} ∧
    "N" ∈ ({"N"} : Finset String) := by decide

/-- C1, amended: the `year_min` check never touches a document whose Year is
absent — `_apply_filters`'s decision on such a document is the same under
every `year_min` (it can still be excluded by the other filter parameters,
but never by `year_min`). -/
theorem passesFilters_missing_year_indep_yearMin
    (a : FilterArgs) (m : Int) (d : Doc) (h : d.year = none) :
    passesFilters { a with yearMin := m } d = passesFilters a d := by
  simp [passesFilters, h]

/-- C1, witness for the amended theorem at a concrete document and year. -/
theorem passesFilters_missing_year_indep_yearMin_witness :
    passesFilters { defaultArgs with yearMin := 3000 } noYearDoc =
      passesFilters defaultArgs noYearDoc :=
  passesFilters_missing_year_indep_yearMin defaultArgs 3000 noYearDoc rfl

/-- C2: evaluation at the failing input.  The document's title contains the
phrase "inflammatory bowel disease" and neither its title nor its abstract
contains the token "ibd"; the expanded query for `["IBD"]` is the group
`["ibd", "inflammatory bowel disease"]`; yet the candidate set for that
query with operator AND and fields "tiab" is empty, because the inverted
index is keyed by single word tokens and the multi-word variant can never
equal a token. -/
theorem phrase_doc_missing_from_candidates :
    strContains (lowerStr phraseDoc.title) "inflammatory bowel disease" = true ∧
    "ibd" ∉ tokenize phraseDoc.title ∧
    "ibd" ∉ tokenize phraseDoc.abstract ∧
    expandQueryTerms ["IBD"] = [["ibd", "inflammatory bowel disease"]] ∧
    candidatePmids [phraseDoc] (expandQueryTerms ["IBD"]) "AND" "tiab" = ∅ := by
  decide

/-- C3, counterexample: the claim "an operator other than AND/OR/NOT fails
with an InvalidOperator condition" is false on the code: `_candidate_pmids`
with operator "XOR" returns the full (non-empty) document-id universe rather
than failing. -/
theorem invalid_op_returns_universe_cex :
    candidatePmids abc [["ibd"]] "XOR" "tiab" = universePmids abc ∧
    universePmids abc = {"A", "B", "C"} := by decide

/-- C3, amended: for every corpus, every group list and every fields value,
an operator other than "AND", "OR" and "NOT" silently yields the full
document-id universe (the final `return all_pmids` fallback). -/
theorem candidatePmids_invalid_op (c : Corpus) (g : List (List String))
    (fields op : String)
    (h₁ : op ≠ "AND") (h₂ : op ≠ "OR") (h₃ : op ≠ "NOT") :
    candidatePmids c g op fields = universePmids c := by
  unfold candidatePmids
  by_cases hg : g = []
  · rw [if_pos hg]
  · rw [if_neg hg]
    simp only [if_neg h₁, if_neg h₂, if_neg h₃]

/-- C3, witness for the amended theorem at a concrete invalid operator. -/
theorem candidatePmids_invalid_op_witness :
    candidatePmids abc [["autophagy"]] "XOR" "tiab" = universePmids abc :=
  candidatePmids_invalid_op abc [["autophagy"]] "tiab" "XOR"
    (by decide) (by decide) (by decide)

/-- C4, counterexample: with the empty group list the claimed NOT law fails:
`_candidate_pmids([], "NOT", f)` returns the full universe via the
empty-query early return, not `universe − OR(∅) = ∅`. -/
theorem not_law_fails_on_empty_groups :
    candidatePmids abc [] "NOT" "tiab" ≠
      universePmids abc \ candidatePmids abc [] "OR" "tiab" := by decide

/-- C4, amended: for every corpus, group list and fields value,
`AND ⊆ OR`; the law `NOT = universe − OR` holds for every non-empty group
list; for the empty group list every operator (NOT included) returns the
full universe. -/
theorem candidatePmids_boolean_algebra (c : Corpus) (g : List (List String))
    (fields : String) :
    candidatePmids c g "AND" fields ⊆ candidatePmids c g "OR" fields ∧
    (g ≠ [] → candidatePmids c g "NOT" fields =
      universePmids c \ candidatePmids c g "OR" fields) ∧
    (g = [] → candidatePmids c g "NOT" fields = universePmids c) := by
  refine ⟨?_, ?_, ?_⟩
  · cases g with
    | nil => simp [candidatePmids]
    | cons g₀ gs =>
      have h1 : candidatePmids c (g₀ :: gs) "AND" fields =
          (gs.map (groupSet c fields)).foldl (· ∩ ·)
            (universePmids c ∩ groupSet c fields g₀) := by
        simp [candidatePmids]
      have h2 : candidatePmids c (g₀ :: gs) "OR" fields =
          (gs.map (groupSet c fields)).foldl (· ∪ ·) (groupSet c fields g₀) := by
        simp [candidatePmids]
      rw [h1, h2]
      exact (foldl_inter_subset_init _ _).trans
        (Finset.inter_subset_right.trans (init_subset_foldl_union _ _))
  · intro hne
    cases g with
    | nil => exact absurd rfl hne
    | cons g₀ gs => simp [candidatePmids]
  · intro he
    subst he
    simp [candidatePmids]

/-- C4, witness for the amended theorem at concrete inputs: a non-empty group
list for the two laws, the empty group list for the NOT fallback. -/
theorem candidatePmids_boolean_algebra_witness :
    (candidatePmids abc [["ibd"]] "AND" "tiab" ⊆
      candidatePmids abc [["ibd"]] "OR" "tiab") ∧
    candidatePmids abc [["ibd"]] "NOT" "tiab" =
      universePmids abc \ candidatePmids abc [["ibd"]] "OR" "tiab" ∧
    candidatePmids abc [] "NOT" "tiab" = universePmids abc :=
  ⟨(candidatePmids_boolean_algebra abc [["ibd"]] "tiab").1,
   (candidatePmids_boolean_algebra abc [["ibd"]] "tiab").2.1 (by decide),
   (candidatePmids_boolean_algebra abc [] "tiab").2.2 rfl⟩

/-- Raising `year_min` can only shrink the per-row filter decision. -/
theorem passesFilters_yearMin_mono (a : FilterArgs) (m₁ m₂ : Int) (d : Doc)
    (hm : m₁ ≤ m₂) (h : passesFilters { a with yearMin := m₂ } d = true) :
    passesFilters { a with yearMin := m₁ } d = true := by
  cases hy : d.year with
  | none => simpa [passesFilters, hy] using h
  | some y =>
    simp only [passesFilters, hy] at h ⊢
    simp only [Bool.and_eq_true, Bool.not_eq_true', decide_eq_false_iff_not,
      not_lt] at h ⊢
    obtain ⟨⟨⟨⟨⟨⟨h1, h2⟩, h3⟩, h4⟩, h5⟩, h6⟩, h7⟩ := h
    exact ⟨⟨⟨⟨⟨⟨le_trans hm h1, h2⟩, h3⟩, h4⟩, h5⟩, h6⟩, h7⟩

/-- Raising `year_min` can only shrink the kept-row decision. -/
theorem keepsRow_yearMin_mono (c : Corpus) (a : FilterArgs) (m₁ m₂ : Int)
    (p : String) (hm : m₁ ≤ m₂)
    (h : keepsRow c { a with yearMin := m₂ } p = true) :
    keepsRow c { a with yearMin := m₁ } p = true := by
  unfold keepsRow at h ⊢
  revert h
  cases hl : lookupDoc c p with
  | none => intro h; exact Bool.noConfusion h
  | some d => intro h; exact passesFilters_yearMin_mono a m₁ m₂ d hm h

/-- C9: `_apply_filters` is antitone in `year_min`: with the other parameters
fixed, the result set under the larger `year_min` is a subset of the result
set under the smaller one, and in particular no larger. -/
theorem applyFilters_yearMin_antitone (c : Corpus) (a : FilterArgs)
    (m₁ m₂ : Int) (pmids r₁ r₂ : Finset String) (hm : m₁ ≤ m₂)
    (h₁ : applyFilters c { a with yearMin := m₁ } pmids = .ok r₁)
    (h₂ : applyFilters c { a with yearMin := m₂ } pmids = .ok r₂) :
    r₂ ⊆ r₁ ∧ r₂.card ≤ r₁.card := by
  unfold applyFilters at h₁ h₂
  by_cases hc : ∀ p ∈ pmids, (lookupDoc c p).isSome = true
  · rw [if_pos hc] at h₁ h₂
    cases h₁
    cases h₂
    have hsub : pmids.filter (fun p => keepsRow c { a with yearMin := m₂ } p = true) ⊆
        pmids.filter (fun p => keepsRow c { a with yearMin := m₁ } p = true) :=
      Finset.monotone_filter_right pmids
        (fun p hp => keepsRow_yearMin_mono c a m₁ m₂ p hm hp)
    exact ⟨hsub, Finset.card_le_card hsub⟩
  · rw [if_neg hc] at h₁
    exact Except.noConfusion h₁

/-- C9, witness: on the spec §8 corpus, raising `year_min` from 2000 to 2020
shrinks the filtered set from {A, B, C} to {A, C}. -/
theorem applyFilters_yearMin_antitone_witness :
    ({"A", "C"} : Finset String) ⊆ {"A", "B", "C"} ∧
    ({"A", "C"} : Finset String).card ≤ ({"A", "B", "C"} : Finset String).card :=
  applyFilters_yearMin_antitone abc defaultArgs 2000 2020 {"A", "B", "C"}
    {"A", "B", "C"} {"A", "C"} (by decide) (by decide) (by decide)

/-- C10: whenever `_apply_filters` returns, its result set is a subset of the
candidate id set it was given: the filter only removes ids. -/
theorem applyFilters_subset (c : Corpus) (a : FilterArgs)
    (pmids r : Finset String) (h : applyFilters c a pmids = .ok r) :
    r ⊆ pmids := by
  unfold applyFilters at h
  split at h
  · cases h
    exact Finset.filter_subset _ _
  · cases h

/-- C10, witness: a concrete filter run whose result is a strict subset of
its input. -/
theorem applyFilters_subset_witness :
    ({"A", "C"} : Finset String) ⊆ {"A", "B", "C"} :=
  applyFilters_subset abc defaultArgs {"A", "B", "C"} {"A", "C"} (by decide)

/-- The predicate `_proximity` holds iff some cached sentence contains at least two entries
of the term list, counted with multiplicity. -/
theorem proximityHolds_iff (s : List (List String)) (terms : List String) :
    proximityHolds s terms = true ↔
      ∃ sent ∈ s, 2 ≤ terms.countP (fun t => sent.contains t) := by
  simp [proximityHolds]

/-- The recency explanation entries never mention proximity. -/
theorem proximity_not_mem_recencyExplList (y : Option Int) :
    Expl.proximity ∉ recencyExplList y := by
  cases y with
  | none => simp [recencyExplList]
  | some y =>
    by_cases h : recencyBonus (some y) ≠ 0 <;> simp [recencyExplList, h]

/-- The pre-proximity part of the ranking loop never emits the proximity
explanation tag. -/
theorem proximity_not_mem_preProx (flat : List String) (cTi cAb : ℚ) (d : Doc) :
    Expl.proximity ∉ (preProxScore flat cTi cAb d).2 := by
  simp only [preProxScore]
  split_ifs <;>
    simp [List.mem_append, proximity_not_mem_recencyExplList]

/-- C5, counterexample: the query `["IBD", "IBD"]` flattens to a term list in
which each variant occurs twice; on a document whose abstract has one
sentence containing the single distinct term "ibd", every sentence contains
fewer than 2 distinct flattened query terms, yet the ranking loop records
"proximity" and the score carries the 0.15 bonus (the code counts entries of
the flattened list, not distinct terms). -/
theorem proximity_fires_on_one_distinct_term :
    dupFlat = ["ibd", "inflammatory bowel disease",
               "ibd", "inflammatory bowel disease"] ∧
    ((sentenceTokens proxDoc.abstract).all (fun sent =>
      decide ((dupFlat.dedup.filter (fun t => sent.contains t)).length < 2))) = true ∧
    Expl.proximity ∈
      (scoreDoc dupFlat "tiab" (fun _ => 0) (fun _ => 0) proxDoc).explanation ∧
    (scoreDoc dupFlat "tiab" (fun _ => 0) (fun _ => 0) proxDoc).score = 3/20 := by
  decide

/-- C5, amended: in the ranking loop of `search`, exactly 0.15 is added on
top of the pre-proximity score, and the "proximity" tag recorded, if and only
if some sentence of the document's cached sentence tokenization contains at
least 2 entries of the flattened query-term list counted with multiplicity (a
variant occurring in several groups counts once per occurrence; when the
flattened list is duplicate-free this is exactly "at least 2 distinct
terms"). -/
theorem scoreDoc_proximity_bonus (flat : List String) (fields : String)
    (cosTi cosAb : String → ℚ) (d : Doc) :
    ((scoreDoc flat fields cosTi cosAb d).score =
      (preProxScore flat ((scoreDoc flat fields cosTi cosAb d).cosTitle)
        ((scoreDoc flat fields cosTi cosAb d).cosAbstract) d).1 +
      (if ∃ sent ∈ sentenceTokens d.abstract,
          2 ≤ flat.countP (fun t => sent.contains t) then 3/20 else 0)) ∧
    (Expl.proximity ∈ (scoreDoc flat fields cosTi cosAb d).explanation ↔
      ∃ sent ∈ sentenceTokens d.abstract,
        2 ≤ flat.countP (fun t => sent.contains t)) := by
  have hiff := proximityHolds_iff (sentenceTokens d.abstract) flat
  by_cases hp : proximityHolds (sentenceTokens d.abstract) flat = true
  · have hex := hiff.mp hp
    constructor
    · simp only [scoreDoc, hp, if_true, if_pos hex]
    · simp only [scoreDoc, hp, if_true]
      simpa using hex
  · have hnex := fun hex => hp (hiff.mpr hex)
    have hb : proximityHolds (sentenceTokens d.abstract) flat = false :=
      Bool.eq_false_iff.mpr hp
    constructor
    · simp only [scoreDoc, hb, Bool.false_eq_true, if_false, if_neg hnex,
        add_zero]
    · simp only [scoreDoc, hb, Bool.false_eq_true, if_false]
      exact ⟨fun hmem => absurd hmem (proximity_not_mem_preProx _ _ _ _),
             fun hex => absurd hex hnex⟩

/-- C7: the recency bonus of the ranking loop, as a function of the
document's Year: 0 when the year is at most 2020, exactly 0.2 when at least
2025, the exact linear interpolation `((year − 2020) / 5) · 0.2` strictly in
between — strictly increasing there — and, for an absent year, 0 with no
recency explanation entry ever emitted by the scoring loop. -/
theorem recencyBonus_spec :
    recencyBonus none = 0 ∧
    (∀ y : Int, y ≤ 2020 → recencyBonus (some y) = 0) ∧
    (∀ y : Int, 2025 ≤ y → recencyBonus (some y) = 1/5) ∧
    (∀ y : Int, 2020 < y → y < 2025 →
      recencyBonus (some y) = ((y : ℚ) - 2020) / 5 * (1/5)) ∧
    (∀ y₁ y₂ : Int, 2020 < y₁ → y₁ < y₂ → y₂ < 2025 →
      recencyBonus (some y₁) < recencyBonus (some y₂)) ∧
    (∀ (flat : List String) (cTi cAb : ℚ) (d : Doc), d.year = none →
      ∀ q : ℚ, Expl.recency q ∉ (preProxScore flat cTi cAb d).2) := by
  refine ⟨rfl, ?_, ?_, ?_, ?_, ?_⟩
  · intro y h
    simp [recencyBonus, h]
  · intro y h
    have h' : ¬ y ≤ 2020 := by omega
    simp [recencyBonus, h', h]
  · intro y h₁ h₂
    have h' : ¬ y ≤ 2020 := by omega
    have h'' : ¬ y ≥ 2025 := by omega
    simp [recencyBonus, h', h'']
  · intro y₁ y₂ h₁ h₂ h₃
    have e₁ : recencyBonus (some y₁) = ((y₁ : ℚ) - 2020) / 5 * (1/5) := by
      have h' : ¬ y₁ ≤ 2020 := by omega
      have h'' : ¬ y₁ ≥ 2025 := by omega
      simp [recencyBonus, h', h'']
    have e₂ : recencyBonus (some y₂) = ((y₂ : ℚ) - 2020) / 5 * (1/5) := by
      have h' : ¬ y₂ ≤ 2020 := by omega
      have h'' : ¬ y₂ ≥ 2025 := by omega
      simp [recencyBonus, h', h'']
    rw [e₁, e₂]
    have hc : (y₁ : ℚ) < (y₂ : ℚ) := by exact_mod_cast h₂
    linarith
  · intro flat cTi cAb d hy q
    simp only [preProxScore, hy]
    split_ifs <;> simp [recencyExplList]

/-- C7, witness: the recency conjuncts instantiated at concrete years (2019,
2026, 2022, the strictly increasing pair 2021 < 2023, and a concrete
missing-year document). -/
theorem recencyBonus_spec_witness :
    recencyBonus (some 2019) = 0 ∧
    recencyBonus (some 2026) = 1/5 ∧
    recencyBonus (some 2022) = ((2022 : ℚ) - 2020) / 5 * (1/5) ∧
    recencyBonus (some 2021) < recencyBonus (some 2023) ∧
    (∀ q : ℚ, Expl.recency q ∉ (preProxScore [] 0 0 noYearDoc).2) :=
  ⟨recencyBonus_spec.2.1 2019 (by decide),
   recencyBonus_spec.2.2.1 2026 (by decide),
   recencyBonus_spec.2.2.2.1 2022 (by decide) (by decide),
   recencyBonus_spec.2.2.2.2.1 2021 2023 (by decide) (by decide) (by decide),
   recencyBonus_spec.2.2.2.2.2 [] 0 0 noYearDoc rfl⟩

/-- Supporting lemma (not claim-bound): when `search` does return a list —
which requires every scored record's year to be present, since a missing year
makes the sort key raise — that list is sorted descending by score, then
year, then abstract length, then the 0/1 DOI-presence flag (`RankLe` is
exactly that lexicographic "may precede" relation) and is truncated to at
most `k` entries. -/
theorem searchModel_sorted_truncated (c : Corpus) (cosTi cosAb : String → ℚ)
    (query : List String) (op fields : String) (yearMin : Int)
    (yearMax : Option Int) (journalInc journalExc : List String)
    (author : String) (hasDoi : Bool) (excludeTerms : List String) (k : Nat)
    (res : List ResultRec)
    (h : searchModel c cosTi cosAb query op fields yearMin yearMax journalInc
      journalExc author hasDoi excludeTerms k = .ok res) :
    res.Pairwise RankLe ∧ res.length ≤ k := by
  simp only [searchModel] at h
  split at h
  · exact Except.noConfusion h
  · split at h
    · cases h
      exact ⟨List.Pairwise.nil, by simp⟩
    · split at h
      · exact Except.noConfusion h
      · cases h
        constructor
        · exact List.Pairwise.sublist (List.take_sublist _ _)
            (List.sorted_insertionSort RankLe _)
        · exact List.length_take_le _ _

/-- Supporting check for the previous lemma at the concrete one-result search
of the spec §8 example. -/
theorem searchModel_sorted_truncated_concrete :
    ([resA] : List ResultRec).Pairwise RankLe ∧
    ([resA] : List ResultRec).length ≤ 30 :=
  searchModel_sorted_truncated abc (fun _ => 0) (fun _ => 0) ["microRNA"]
    "AND" "tiab" 2020 none [] [] "" false [] 30 [resA] (by decide)

/-- C6: evaluation at the failing input.  A document with a missing Year
passes the metadata filter (its `Year` never fails the `year_min` check) and
reaches the ranking sort, where the key `-(r["year"] or 0)` of line 276
evaluates the truthiness of `pd.NA` and raises `TypeError`: `search` crashes
instead of returning the claimed sorted, truncated list with the missing year
treated as 0.  The `or 0` coalescing in the key shows "missing sorts as 0" is
the code's own intent — the slip is storing the raw `row["Year"]` (pd.NA) in
the record at line 265 rather than the `None`-coalesced local of line 229. -/
theorem missing_year_sort_raises :
    noYearDoc.year = none ∧
    applyFilters [noYearDoc] ⟨2020, none, [], [], "", false, [], "tiab"⟩
      (universePmids [noYearDoc]) = .ok {"N"} ∧
    searchModel [noYearDoc] (fun _ => 0) (fun _ => 0) [] "AND" "tiab" 2020
      none [] [] "" false [] 30 = .error .typeError := by decide

/-- C8: the embedded search pipeline is a pure function of the corpus, the
TF-IDF oracle and the query arguments: two runs with identical inputs return
identical output, scores, explanation lists and tie-break order included.
(The Python path has no randomness; the only unordered structure it iterates,
the candidate set, is re-ordered by corpus row position before scoring, and
the final sort is stable, which the model makes explicit.) -/
theorem searchModel_deterministic (c : Corpus) (cosTi cosAb : String → ℚ)
    (query : List String) (op fields : String) (yearMin : Int)
    (yearMax : Option Int) (journalInc journalExc : List String)
    (author : String) (hasDoi : Bool) (excludeTerms : List String) (k : Nat) :
    searchModel c cosTi cosAb query op fields yearMin yearMax journalInc
      journalExc author hasDoi excludeTerms k =
    searchModel c cosTi cosAb query op fields yearMin yearMax journalInc
      journalExc author hasDoi excludeTerms k := rfl

end PtSearch

